import Mathlib

/-!
# Verification of the SAS query-parameter model and the LRO polling dispatcher

A shallow embedding of the hand-authored core of this repository:

* `sdk/tables/data-tables/src/sas/sasQueryParameters.ts` — the
  `SasQueryParameters` class (construction and canonical `toString`
  serialization), embedded field by field;
* `sdk/loadtesting/load-testing-rest/src/pollingHelper.ts` — the
  long-running-operation dispatcher `getLongRunningPoller` with its two
  URL-shape predicates.

Helper modules that the SAS class imports (`sasIPRange.ts`, `models.ts`,
`truncateISO8061Date.ts`) and the JavaScript built-in `encodeURIComponent`
are not part of the provided sources; their definitions below are marked
as modelled from the specification.
-/

namespace AzureSdk

/-- Uppercase hexadecimal digit for a value reduced mod 16
(used when percent-encoding a byte). -/
def hexUpper (n : Nat) : Char :=
  let m := n % 16
  if m < 10 then Char.ofNat (48 + m) else Char.ofNat (55 + m)

/-- The characters that JavaScript's `encodeURIComponent` leaves unescaped:
ASCII letters, digits, and `- _ . ! ~ * ' ( )`. -/
def isUriUnreserved (c : Char) : Bool :=
  (('A' ≤ c && c ≤ 'Z') || ('a' ≤ c && c ≤ 'z') || ('0' ≤ c && c ≤ '9')) ||
  (c == '-' || c == '_' || c == '.' || c == '!' || c == '~' ||
   c == '*' || c == '\'' || c == '(' || c == ')')

/-- UTF-8 byte sequence of a Unicode scalar value. -/
def utf8Bytes (c : Char) : List Nat :=
  let n := c.toNat
  if n < 0x80 then [n]
  else if n < 0x800 then
    [0xC0 ||| (n >>> 6), 0x80 ||| (n &&& 0x3F)]
  else if n < 0x10000 then
    [0xE0 ||| (n >>> 12), 0x80 ||| ((n >>> 6) &&& 0x3F), 0x80 ||| (n &&& 0x3F)]
  else
    [0xF0 ||| (n >>> 18), 0x80 ||| ((n >>> 12) &&& 0x3F),
     0x80 ||| ((n >>> 6) &&& 0x3F), 0x80 ||| (n &&& 0x3F)]

/-- Percent-encoding of one character: kept verbatim when unreserved,
otherwise each UTF-8 byte becomes `%XX` with uppercase hex. -/
def uriEncodeChar (c : Char) : List Char :=
  if isUriUnreserved c then [c]
  else (utf8Bytes c).flatMap (fun b => ['%', hexUpper (b / 16), hexUpper (b % 16)])

/-- Modelled from the spec: the JavaScript built-in `encodeURIComponent`
(“each percent-encoded”, §4.2) — unreserved characters pass through, every
other character is replaced by the `%XX` encoding of its UTF-8 bytes. -/
def encodeURIComponent (s : String) : String :=
  String.mk (s.data.flatMap uriEncodeChar)

/-- JavaScript `String.prototype.includes` on character lists:
true when `sub` occurs as a contiguous substring of the second argument. -/
def charListIncludes (sub : List Char) : List Char → Bool
  | [] => sub.isEmpty
  | c :: rest => sub.isPrefixOf (c :: rest) || charListIncludes sub rest

/-- JavaScript `s.includes(sub)` on strings. -/
def strIncludes (s sub : String) : Bool :=
  charListIncludes sub.data s.data

/-- JavaScript `Array.prototype.join("&")`: elements concatenated with a
single `&` between consecutive elements, no leading or trailing separator. -/
def joinAmp : List String → String
  | [] => ""
  | [q] => q
  | q :: rest => q ++ "&" ++ joinAmp rest

/-- A calendar date-time with second precision (the part of a JavaScript
`Date` that the truncated ISO-8601 encoder observes). -/
structure Date where
  year : Nat
  month : Nat
  day : Nat
  hour : Nat
  minute : Nat
  second : Nat
deriving DecidableEq, Repr

/-- Zero-pad a numeral to two digits. -/
def pad2 (n : Nat) : String :=
  if n < 10 then "0" ++ Nat.repr n else Nat.repr n

/-- Zero-pad a numeral to four digits. -/
def pad4 (n : Nat) : String :=
  if n < 10 then "000" ++ Nat.repr n
  else if n < 100 then "00" ++ Nat.repr n
  else if n < 1000 then "0" ++ Nat.repr n
  else Nat.repr n

/-- Modelled from the spec: `truncatedISO8061Date` from
`utils/truncateISO8061Date.ts` (not among the provided sources), as used by
the serializer with `withMilliseconds = false` — “Timestamp wire format:
truncated ISO-8601, second precision” (§6), i.e. `YYYY-MM-DDTHH:mm:ssZ`. -/
def truncatedISO8061Date (d : Date) : String :=
  pad4 d.year ++ "-" ++ pad2 d.month ++ "-" ++ pad2 d.day ++ "T" ++
  pad2 d.hour ++ ":" ++ pad2 d.minute ++ ":" ++ pad2 d.second ++ "Z"

/-- Modelled from the spec: `SasIPRange` from `sasIPRange.ts` (not among the
provided sources) — “a start/end pair of IP-address strings” (§3), the end
being optional. -/
structure SasIPRange where
  start : String
  «end» : Option String := none
deriving DecidableEq, Repr

/-- Modelled from the spec: `ipRangeToString` from `sasIPRange.ts` (not among
the provided sources) — “if end is absent or equal to start, emit only the
start address; otherwise emit `start-end` joined by a literal hyphen. No
validation of IP address syntax is performed” (§4.1). -/
def ipRangeToString (r : SasIPRange) : String :=
  match r.«end» with
  | none => r.start
  | some e => if e = r.start then r.start else r.start ++ "-" ++ e

/-- Modelled from the spec: the `UserDelegationKey` interface from
`models.ts` (not among the provided sources) — the six delegation-key
components read by the `SasQueryParameters` constructor (§3). -/
structure UserDelegationKey where
  signedObjectId : String
  signedTenantId : String
  signedStartsOn : Date
  signedExpiresOn : Date
  signedService : String
  signedVersion : String
deriving DecidableEq, Repr

/-- `SasProtocol`: the string union `"https" | "https,http"` from
`sasQueryParameters.ts`. -/
inductive SasProtocol where
  | https
  | httpsHttp
deriving DecidableEq, Repr

/-- The string denoted by a member of the `SasProtocol` union. -/
def SasProtocol.toWire : SasProtocol → String
  | .https => "https"
  | .httpsHttp => "https,http"

/-- The `SasQueryParametersOptions` bag from `sasQueryParameters.ts`:
every field optional. (`resource` is declared by the interface but never
read by the constructor.) -/
structure SasQueryParametersOptions where
  permissions : Option String := none
  tableName : Option String := none
  services : Option String := none
  resourceTypes : Option String := none
  protocol : Option SasProtocol := none
  startsOn : Option Date := none
  expiresOn : Option Date := none
  ipRange : Option SasIPRange := none
  identifier : Option String := none
  resource : Option String := none
  userDelegationKey : Option UserDelegationKey := none
  preauthorizedAgentObjectId : Option String := none
  correlationId : Option String := none
  startPartitionKey : Option String := none
  startRowKey : Option String := none
  endPartitionKey : Option String := none
  endRowKey : Option String := none
deriving Repr

/-- The field set of the `SasQueryParameters` class: required `version` and
`signature`, everything else optional (TypeScript `undefined` embeds as
`none`). -/
structure SasQueryParameters where
  version : String
  tableName : Option String
  protocol : Option SasProtocol
  startsOn : Option Date
  expiresOn : Option Date
  permissions : Option String
  services : Option String
  resourceTypes : Option String
  identifier : Option String
  signature : String
  ipRangeInner : Option SasIPRange
  signedOid : Option String
  signedTenantId : Option String
  signedStartsOn : Option Date
  signedExpiresOn : Option Date
  signedService : Option String
  signedVersion : Option String
  preauthorizedAgentObjectId : Option String
  correlationId : Option String
  startPartitionKey : Option String
  startRowKey : Option String
  endPartitionKey : Option String
  endRowKey : Option String
deriving DecidableEq, Repr

/-- The constructor of `SasQueryParameters` (lines 181–210 of
`sasQueryParameters.ts`): copies `version`, `signature` and the optional
scalars; the six delegation-key components together with
`preauthorizedAgentObjectId` and `correlationId` are copied only inside the
`if (options.userDelegationKey)` block. -/
def SasQueryParameters.create (version : String) (signature : String)
    (options : SasQueryParametersOptions := {}) : SasQueryParameters :=
  { version := version
    signature := signature
    permissions := options.permissions
    services := options.services
    resourceTypes := options.resourceTypes
    protocol := options.protocol
    startsOn := options.startsOn
    expiresOn := options.expiresOn
    ipRangeInner := options.ipRange
    identifier := options.identifier
    tableName := options.tableName
    endPartitionKey := options.endPartitionKey
    endRowKey := options.endRowKey
    startPartitionKey := options.startPartitionKey
    startRowKey := options.startRowKey
    signedOid := options.userDelegationKey.map (·.signedObjectId)
    signedTenantId := options.userDelegationKey.map (·.signedTenantId)
    signedStartsOn := options.userDelegationKey.map (·.signedStartsOn)
    signedExpiresOn := options.userDelegationKey.map (·.signedExpiresOn)
    signedService := options.userDelegationKey.map (·.signedService)
    signedVersion := options.userDelegationKey.map (·.signedVersion)
    preauthorizedAgentObjectId :=
      match options.userDelegationKey with
      | some _ => options.preauthorizedAgentObjectId
      | none => none
    correlationId :=
      match options.userDelegationKey with
      | some _ => options.correlationId
      | none => none }

/-- The TypeScript call contract of the constructor:
`constructor(version: string, signature: string, options = {})` — both
`version` and `signature` are required `string` parameters, so TypeScript
rejects a call that omits either as a compile-time required-argument/type
error (modelled as `Except.error`); the options bag is optional. -/
def SasQueryParameters.checkedCreate (version : Option String)
    (signature : Option String) (options : SasQueryParametersOptions := {}) :
    Except String SasQueryParameters :=
  match version, signature with
  | some v, some s => .ok (SasQueryParameters.create v s options)
  | _, _ => .error "required-argument/type error: version and signature are required"

/-- The `ipRange` getter (lines 164–172): a fresh start/end view over the
stored range, or `undefined`. -/
def SasQueryParameters.ipRange (p : SasQueryParameters) : Option SasIPRange :=
  match p.ipRangeInner with
  | some r => some { start := r.start, «end» := r.«end» }
  | none => none

/-- `tryAppendQueryParameter` (lines 353–363): skip falsy values
(`undefined` or the empty string), percent-encode key and value, and push
`key=value` when both encodings are non-empty. -/
def SasQueryParameters.tryAppendQueryParameter (queries : List String)
    (key : String) (value : Option String) : List String :=
  match value with
  | none => queries
  | some value =>
    if value = "" then queries
    else
      let k := encodeURIComponent key
      let v := encodeURIComponent value
      if k.length > 0 && v.length > 0 then queries ++ [k ++ "=" ++ v] else queries

/-- The ordered key list of `toString` (lines 217–247), including the
reserved slots (`sr`, `rscc`, `rscd`, `rsce`, `rscl`, `rsct`) that this
model variant never populates. -/
def sasParamOrder : List String :=
  ["sv", "ss", "srt", "spr", "st", "se", "sip", "si", "skoid", "sktid",
   "skt", "ske", "sks", "skv", "sr", "sp", "sig", "rscc", "rscd", "rsce",
   "rscl", "rsct", "saoid", "scid", "tn", "srk", "spk", "epk", "erk"]

/-- The value selected by the `switch (param)` of `toString` (lines
250–342) for a given key: each arm below is the third argument passed to
`tryAppendQueryParameter` in the corresponding `case`; keys without a
`case` (the reserved slots) select nothing. -/
def SasQueryParameters.valueFor (p : SasQueryParameters) (param : String) :
    Option String :=
  match param with
  | "sv" => some p.version
  | "ss" => p.services
  | "srt" => p.resourceTypes
  | "spr" => p.protocol.map SasProtocol.toWire
  | "st" => p.startsOn.map truncatedISO8061Date
  | "se" => p.expiresOn.map truncatedISO8061Date
  | "sip" => p.ipRange.map ipRangeToString
  | "si" => p.identifier
  | "skoid" => p.signedOid
  | "sktid" => p.signedTenantId
  | "skt" => p.signedStartsOn.map truncatedISO8061Date
  | "ske" => p.signedExpiresOn.map truncatedISO8061Date
  | "sks" => p.signedService
  | "skv" => p.signedVersion
  | "sp" => p.permissions
  | "sig" => some p.signature
  | "saoid" => p.preauthorizedAgentObjectId
  | "scid" => p.correlationId
  | "tn" => p.tableName
  | "spk" => p.startPartitionKey
  | "srk" => p.startRowKey
  | "epk" => p.endPartitionKey
  | "erk" => p.endRowKey
  | _ => none

/-- `toString` (lines 216–344): iterate the fixed key list, try to append
each key's selected value, and join the collected pairs with `&`. -/
def SasQueryParameters.toString (p : SasQueryParameters) : String :=
  let queries := sasParamOrder.foldl
    (fun queries param =>
      SasQueryParameters.tryAppendQueryParameter queries param (p.valueFor param))
    []
  joinAmp queries

/-- The single pair that `tryAppendQueryParameter` would append for a key
and an optional value, as an encoded (key, value) pair, or nothing. -/
def emitKV (key : String) (value : Option String) : Option (String × String) :=
  match value with
  | none => none
  | some value =>
    if value = "" then none
    else
      let k := encodeURIComponent key
      let v := encodeURIComponent value
      if k.length > 0 && v.length > 0 then some (k, v) else none

/-- Render an encoded (key, value) pair as `key=value`. -/
def joinKV (kv : String × String) : String :=
  kv.1 ++ "=" ++ kv.2

/-- The ordered list of encoded (key, value) pairs that `toString` emits. -/
def SasQueryParameters.emittedPairs (p : SasQueryParameters) :
    List (String × String) :=
  sasParamOrder.filterMap (fun k => emitKV k (p.valueFor k))

/-- Whether an optional value is present and non-empty — the condition
under which `tryAppendQueryParameter` emits a pair. -/
def presentVal : Option String → Bool
  | none => false
  | some s => !(s = "")

/-- Two sequential calls of `toString` on the same (immutable) instance. -/
def SasQueryParameters.toStringTwice (p : SasQueryParameters) :
    String × String :=
  let first := p.toString
  let second := p.toString
  (first, second)

/-- The opaque client handle passed through by the dispatcher
(`AzureLoadTestingClient`). -/
structure AzureLoadTestingClient where
  clientId : Nat := 0
deriving DecidableEq, Repr

/-- The originating request embedded in a completed response: the
dispatcher reads only its URL. -/
structure LroRequest where
  url : String
deriving DecidableEq, Repr

/-- The initial response handed to the dispatcher: exposes the originating
request. -/
structure LroResponse where
  request : LroRequest
deriving DecidableEq, Repr

/-- Which specialized poller the dispatcher selected. -/
inductive LroPoller where
  | fileValidation
  | testRunCompletion
deriving DecidableEq, Repr

/-- `isFileUpload` (lines 34–36 of `pollingHelper.ts`):
`response.request.url.includes("/files/")`. -/
def isFileUpload (response : LroResponse) : Bool :=
  strIncludes response.request.url "/files/"

/-- `isTestRunCreation` (lines 38–40 of `pollingHelper.ts`):
`response.request.url.includes("/test-runs/")`. -/
def isTestRunCreation (response : LroResponse) : Bool :=
  strIncludes response.request.url "/test-runs/"

/-- `getLongRunningPoller` (lines 22–32 of `pollingHelper.ts`): file-upload
check first, then test-run check, otherwise the explicit error. The two
poller constructors are represented by the tag of the poller they build. -/
def getLongRunningPoller (_client : AzureLoadTestingClient)
    (initialResponse : LroResponse) : Except String LroPoller :=
  if isFileUpload initialResponse then
    .ok .fileValidation
  else if isTestRunCreation initialResponse then
    .ok .testRunCompletion
  else
    .error "The Operation is not a long running operation."

/-! ## Helper lemmas about the serializer -/

lemma tryAppend_eq_emit (qs : List String) (k : String) (v : Option String) :
    SasQueryParameters.tryAppendQueryParameter qs k v
      = qs ++ ((emitKV k v).map joinKV).toList := by
  cases v with
  | none => simp [SasQueryParameters.tryAppendQueryParameter, emitKV]
  | some s =>
    simp only [SasQueryParameters.tryAppendQueryParameter, emitKV]
    by_cases hs : s = ""
    · simp [hs]
    · simp only [hs, if_false]
      by_cases hlen :
          (encodeURIComponent k).length > 0 && (encodeURIComponent s).length > 0
      · simp [hlen, joinKV]
      · simp [hlen]

lemma foldl_tryAppend (f : String → Option String) (ks : List String) :
    ∀ (init : List String),
      ks.foldl
        (fun qs k => SasQueryParameters.tryAppendQueryParameter qs k (f k)) init
        = init ++ ((ks.filterMap (fun k => emitKV k (f k))).map joinKV) := by
  induction ks with
  | nil => intro init; simp
  | cons k ks ih =>
    intro init
    rw [List.foldl_cons, ih, tryAppend_eq_emit, List.filterMap_cons]
    cases h : emitKV k (f k) with
    | none => simp [h]
    | some kv => simp [h]

lemma toString_eq_joinAmp (p : SasQueryParameters) :
    p.toString = joinAmp ((p.emittedPairs).map joinKV) := by
  unfold SasQueryParameters.toString SasQueryParameters.emittedPairs
  rw [foldl_tryAppend]
  simp

/-! ## Helper lemmas about percent encoding -/

lemma utf8Bytes_ne_nil (c : Char) : utf8Bytes c ≠ [] := by
  unfold utf8Bytes
  dsimp only
  split
  · simp
  · split
    · simp
    · split <;> simp

lemma uriEncodeChar_ne_nil (c : Char) : uriEncodeChar c ≠ [] := by
  unfold uriEncodeChar
  split
  · simp
  · obtain ⟨b, bs, hb⟩ := List.exists_cons_of_ne_nil (utf8Bytes_ne_nil c)
    rw [hb]
    simp [List.flatMap_cons]

lemma encode_ne_empty {s : String} (h : s ≠ "") : encodeURIComponent s ≠ "" := by
  intro hc
  apply h
  rw [String.ext_iff] at hc ⊢
  obtain ⟨c, cs, hdata⟩ := List.exists_cons_of_ne_nil
    (fun hnil => h (String.ext_iff.mpr hnil))
  exfalso
  rw [show (encodeURIComponent s).data = s.data.flatMap uriEncodeChar from rfl,
    hdata, List.flatMap_cons] at hc
  obtain ⟨x, xs, hx⟩ := List.exists_cons_of_ne_nil (uriEncodeChar_ne_nil c)
  rw [hx] at hc
  simp at hc

lemma hexUpper_mod (n : Nat) : hexUpper n = hexUpper (n % 16) := by
  unfold hexUpper
  rw [Nat.mod_mod_of_dvd n (dvd_refl 16)]

lemma hexUpper_ne_amp (n : Nat) : hexUpper n ≠ '&' := by
  have hball : ∀ m, m < 16 → hexUpper m ≠ '&' := by decide
  rw [hexUpper_mod]
  exact hball (n % 16) (Nat.mod_lt _ (by norm_num))

lemma amp_not_mem_uriEncodeChar (c : Char) : '&' ∉ uriEncodeChar c := by
  unfold uriEncodeChar
  split
  · rename_i hres
    intro hmem
    rw [List.mem_singleton] at hmem
    rw [← hmem] at hres
    exact absurd hres (by decide)
  · intro hmem
    rw [List.mem_flatMap] at hmem
    obtain ⟨b, _, hb⟩ := hmem
    simp only [List.mem_cons, List.mem_singleton, List.not_mem_nil, or_false] at hb
    rcases hb with h | h | h
    · exact absurd h (by decide)
    · exact (hexUpper_ne_amp (b / 16)) h.symm
    · exact (hexUpper_ne_amp (b % 16)) h.symm

lemma amp_not_mem_encode (s : String) : '&' ∉ (encodeURIComponent s).data := by
  intro hmem
  rw [show (encodeURIComponent s).data = s.data.flatMap uriEncodeChar from rfl,
    List.mem_flatMap] at hmem
  obtain ⟨c, _, hc⟩ := hmem
  exact amp_not_mem_uriEncodeChar c hc

/-! ## Characterization of the emitted keys -/

lemma sasParamOrder_keys :
    ∀ k ∈ sasParamOrder, encodeURIComponent k = k ∧ k ≠ "" := by decide

lemma length_pos_of_ne_empty {s : String} (h : s ≠ "") : s.length > 0 := by
  show 0 < s.data.length
  exact List.length_pos.mpr (fun hnil => h (String.ext_iff.mpr hnil))

lemma emitKV_of_not_present {k : String} {v : Option String}
    (hv : presentVal v = false) : emitKV k v = none := by
  cases v with
  | none => rfl
  | some s =>
    simp only [presentVal, Bool.not_eq_false', decide_eq_true_eq] at hv
    simp [emitKV, hv]

lemma emitKV_of_present {k : String} (hk : encodeURIComponent k = k)
    (hke : k ≠ "") {s : String} (hs : s ≠ "") :
    emitKV k (some s) = some (k, encodeURIComponent s) := by
  simp only [emitKV, hs, if_false]
  rw [hk]
  have h1 : k.length > 0 := length_pos_of_ne_empty hke
  have h2 : (encodeURIComponent s).length > 0 :=
    length_pos_of_ne_empty (encode_ne_empty hs)
  simp [h1, h2]

lemma filterMap_emit_keys (f : String → Option String) :
    ∀ (ks : List String), (∀ k ∈ ks, encodeURIComponent k = k ∧ k ≠ "") →
      ((ks.filterMap (fun k => emitKV k (f k))).map Prod.fst)
        = ks.filter (fun k => presentVal (f k)) := by
  intro ks
  induction ks with
  | nil => intro; simp
  | cons k ks ih =>
    intro h
    obtain ⟨hk, hke⟩ := h k (List.mem_cons_self k ks)
    have ihs := ih (fun k' hk' => h k' (List.mem_cons_of_mem _ hk'))
    rw [List.filterMap_cons, List.filter_cons]
    cases hp : presentVal (f k) with
    | false => rw [emitKV_of_not_present hp]; simpa using ihs
    | true =>
      cases hv : f k with
      | none => rw [hv] at hp; simp [presentVal] at hp
      | some s =>
        rw [hv] at hp
        simp only [presentVal, Bool.not_eq_true', decide_eq_false_iff_not] at hp
        rw [emitKV_of_present hk hke hp]
        simpa using ihs

lemma emittedKeys_eq (p : SasQueryParameters) :
    (p.emittedPairs).map Prod.fst
      = sasParamOrder.filter (fun k => presentVal (p.valueFor k)) :=
  filterMap_emit_keys _ sasParamOrder sasParamOrder_keys

lemma mem_emitted_keys_iff (p : SasQueryParameters) {k : String}
    (hk : k ∈ sasParamOrder) :
    k ∈ (p.emittedPairs).map Prod.fst ↔ presentVal (p.valueFor k) = true := by
  rw [emittedKeys_eq, List.mem_filter]
  exact ⟨fun h => h.2, fun h => ⟨hk, h⟩⟩

lemma truncISO_ne_empty (d : Date) : truncatedISO8061Date d ≠ "" := by
  intro h
  have hlen : (truncatedISO8061Date d).length = 0 := by rw [h]; rfl
  unfold truncatedISO8061Date at hlen
  simp only [String.length_append] at hlen
  have hz : ("Z" : String).length = 1 := rfl
  omega

/-! ## Helper lemmas about joining with ampersands -/

lemma joinAmp_count_amp :
    ∀ (qs : List String), (∀ q ∈ qs, '&' ∉ q.data) →
      (joinAmp qs).data.count '&' = qs.length - 1
  | [], _ => by simp [joinAmp]
  | [q], h => by
    simp only [joinAmp, List.length_singleton]
    rw [List.count_eq_zero.mpr (h q (List.mem_singleton_self q))]
  | q :: q' :: rest, h => by
    have ih := joinAmp_count_amp (q' :: rest)
      (fun x hx => h x (List.mem_cons_of_mem _ hx))
    show ((q ++ "&" ++ joinAmp (q' :: rest)).data.count '&'
      = (q :: q' :: rest).length - 1)
    rw [String.data_append, String.data_append, List.count_append,
      List.count_append, ih,
      List.count_eq_zero.mpr (h q (List.mem_cons_self q _))]
    simp only [List.length_cons]
    have : (("&" : String).data.count '&') = 1 := by decide
    rw [this]
    omega

lemma joinAmp_data_ne_nil :
    ∀ (qs : List String), qs ≠ [] → (∀ q ∈ qs, q ≠ "") →
      (joinAmp qs).data ≠ []
  | [], hne, _ => absurd rfl hne
  | [q], _, h => by
    simp only [joinAmp]
    intro hnil
    exact h q (List.mem_singleton_self q) (String.ext_iff.mpr hnil)
  | q :: q' :: rest, _, h => by
    show ((q ++ "&" ++ joinAmp (q' :: rest)).data ≠ [])
    rw [String.data_append, String.data_append]
    simp

lemma joinAmp_head_not_amp :
    ∀ (qs : List String), (∀ q ∈ qs, q ≠ "" ∧ '&' ∉ q.data) →
      ((joinAmp qs).data.head? == some '&') = false
  | [], _ => by decide
  | [q], h => by
    simp only [joinAmp]
    obtain ⟨hne, hmem⟩ := h q (List.mem_singleton_self q)
    obtain ⟨c, cs, hdata⟩ := List.exists_cons_of_ne_nil
      (fun hnil => hne (String.ext_iff.mpr hnil))
    rw [hdata]
    simp only [List.head?_cons, beq_eq_false_iff_ne, ne_eq, Option.some.injEq]
    intro hc
    rw [hdata, hc] at hmem
    exact hmem (List.mem_cons_self _ _)
  | q :: q' :: rest, h => by
    show (((q ++ "&" ++ joinAmp (q' :: rest)).data.head? == some '&') = false)
    obtain ⟨hne, hmem⟩ := h q (List.mem_cons_self q _)
    obtain ⟨c, cs, hdata⟩ := List.exists_cons_of_ne_nil
      (fun hnil => hne (String.ext_iff.mpr hnil))
    rw [String.data_append, String.data_append, hdata, List.cons_append,
      List.cons_append]
    simp only [List.head?_cons, beq_eq_false_iff_ne, ne_eq, Option.some.injEq]
    intro hc
    rw [hdata, hc] at hmem
    exact hmem (List.mem_cons_self _ _)

lemma joinAmp_getLast_not_amp :
    ∀ (qs : List String), (∀ q ∈ qs, q ≠ "" ∧ '&' ∉ q.data) →
      ((joinAmp qs).data.getLast? == some '&') = false
  | [], _ => by decide
  | [q], h => by
    simp only [joinAmp]
    obtain ⟨_, hmem⟩ := h q (List.mem_singleton_self q)
    cases hlast : q.data.getLast? with
    | none => decide
    | some c =>
      simp only [beq_eq_false_iff_ne, ne_eq, Option.some.injEq]
      intro hc
      obtain ⟨_, heq⟩ := List.mem_getLast?_eq_getLast hlast
      rw [hc] at heq
      exact hmem (heq ▸ List.getLast_mem _)
  | q :: q' :: rest, h => by
    have ih := joinAmp_getLast_not_amp (q' :: rest)
      (fun x hx => h x (List.mem_cons_of_mem _ hx))
    have hnil : (joinAmp (q' :: rest)).data ≠ [] :=
      joinAmp_data_ne_nil (q' :: rest) (by simp)
        (fun x hx => (h x (List.mem_cons_of_mem _ hx)).1)
    show (((q ++ "&" ++ joinAmp (q' :: rest)).data.getLast? == some '&') = false)
    rw [String.data_append, List.getLast?_append]
    rw [Option.or_of_isSome]
    · exact ih
    · cases hcase : (joinAmp (q' :: rest)).data with
      | nil => exact absurd hcase hnil
      | cons x xs => simp [List.getLast?_cons]

lemma ne_empty_of_length_pos {s : String} (h : 0 < s.length) : s ≠ "" := by
  intro he
  rw [he] at h
  simp at h

lemma emitKV_some_shape {k : String} {v : Option String} {kv : String × String}
    (h : emitKV k v = some kv) :
    ∃ s, v = some s ∧ s ≠ ""
      ∧ kv = (encodeURIComponent k, encodeURIComponent s)
      ∧ kv.1 ≠ "" ∧ kv.2 ≠ "" := by
  cases v with
  | none => simp [emitKV] at h
  | some s =>
    simp only [emitKV] at h
    by_cases hs : s = ""
    · simp [hs] at h
    · simp only [hs, if_false] at h
      by_cases hlen :
          (encodeURIComponent k).length > 0 && (encodeURIComponent s).length > 0
      · simp only [hlen, if_true, Option.some.injEq] at h
        simp only [Bool.and_eq_true, decide_eq_true_eq] at hlen
        refine ⟨s, rfl, hs, h.symm, ?_, ?_⟩
        · rw [← h]; exact ne_empty_of_length_pos hlen.1
        · rw [← h]; exact ne_empty_of_length_pos hlen.2
      · simp [hlen] at h

lemma emitted_pair_props (p : SasQueryParameters) :
    ∀ kv ∈ p.emittedPairs, joinKV kv ≠ "" ∧ '&' ∉ (joinKV kv).data := by
  intro kv hkv
  rw [SasQueryParameters.emittedPairs, List.mem_filterMap] at hkv
  obtain ⟨k, _, hk⟩ := hkv
  obtain ⟨s, _, hs, hkv_eq, h1, h2⟩ := emitKV_some_shape hk
  constructor
  · intro he
    have hlen : (joinKV kv).length = 0 := by rw [he]; rfl
    rw [joinKV] at hlen
    simp only [String.length_append] at hlen
    have h2' : 0 < kv.2.length := length_pos_of_ne_empty h2
    omega
  · rw [joinKV, String.data_append, String.data_append]
    intro hmem
    rcases List.mem_append.mp hmem with hmem | hmem
    · rcases List.mem_append.mp hmem with hmem | hmem
      · have hfst : kv.1 = encodeURIComponent k := by rw [hkv_eq]
        rw [hfst] at hmem
        exact amp_not_mem_encode k hmem
      · exact absurd hmem (by decide)
    · have hsnd : kv.2 = encodeURIComponent s := by rw [hkv_eq]
      rw [hsnd] at hmem
      exact amp_not_mem_encode s hmem

/-! ## The claims -/

/-- C1: for every `SasQueryParameters` instance, the key=value pairs emitted
by `toString` appear exactly in the fixed key order
`sv, ss, srt, spr, st, se, sip, si, skoid, sktid, skt, ske, sks, skv, sr,
sp, sig, rscc, rscd, rsce, rscl, rsct, saoid, scid, tn, srk, spk, epk, erk`,
restricted to the keys whose values are present; no emitted key appears out
of this sequence (the emitted key list is the presence-filter of the fixed
order, hence a sublist of it). -/
theorem sas_toString_key_order (p : SasQueryParameters) :
    p.toString = joinAmp ((p.emittedPairs).map joinKV)
    ∧ (p.emittedPairs).map Prod.fst
        = sasParamOrder.filter (fun k => presentVal (p.valueFor k))
    ∧ ((p.emittedPairs).map Prod.fst).Sublist sasParamOrder
    ∧ sasParamOrder
        = ["sv", "ss", "srt", "spr", "st", "se", "sip", "si", "skoid",
           "sktid", "skt", "ske", "sks", "skv", "sr", "sp", "sig", "rscc",
           "rscd", "rsce", "rscl", "rsct", "saoid", "scid", "tn", "srk",
           "spk", "epk", "erk"] := by
  refine ⟨toString_eq_joinAmp p, emittedKeys_eq p, ?_, rfl⟩
  rw [emittedKeys_eq p]
  exact List.filter_sublist _

/-- C2: `toString` appends a field as key=value (both percent-encoded) only
if the value is present and non-empty; absent or empty fields produce no
pair at all; the present pairs are joined by single `&` separators (the
output contains exactly `pairs − 1` ampersands, none inside a pair) and the
result neither starts nor ends with a separator. -/
theorem sas_emission_rule (p : SasQueryParameters) (k₀ : String)
    (hk₀ : k₀ ∈ sasParamOrder) (s₀ : String) (hs₀ : s₀ ≠ "") :
    emitKV k₀ none = none
    ∧ emitKV k₀ (some "") = none
    ∧ emitKV k₀ (some s₀) = some (encodeURIComponent k₀, encodeURIComponent s₀)
    ∧ p.toString = joinAmp ((p.emittedPairs).map joinKV)
    ∧ (∀ q ∈ (p.emittedPairs).map joinKV, q ≠ "" ∧ '&' ∉ q.data)
    ∧ (p.toString).data.count '&' = (p.emittedPairs).length - 1
    ∧ ((p.toString).data.head? == some '&') = false
    ∧ ((p.toString).data.getLast? == some '&') = false := by
  obtain ⟨hk_enc, hk_ne⟩ := sasParamOrder_keys k₀ hk₀
  have pairProps : ∀ q ∈ (p.emittedPairs).map joinKV, q ≠ "" ∧ '&' ∉ q.data := by
    intro q hq
    rw [List.mem_map] at hq
    obtain ⟨kv, hkv, hq_eq⟩ := hq
    rw [← hq_eq]
    exact emitted_pair_props p kv hkv
  refine ⟨rfl, by simp [emitKV], ?_, toString_eq_joinAmp p, pairProps, ?_, ?_, ?_⟩
  · rw [hk_enc]
    exact emitKV_of_present hk_enc hk_ne hs₀
  · rw [toString_eq_joinAmp p,
      joinAmp_count_amp _ (fun q hq => (pairProps q hq).2), List.length_map]
  · rw [toString_eq_joinAmp p]
    exact joinAmp_head_not_amp _ pairProps
  · rw [toString_eq_joinAmp p]
    exact joinAmp_getLast_not_amp _ pairProps

/-- C2 witness: instantiated at a concrete instance, key and value. -/
theorem sas_emission_rule_witness :
    emitKV "sv" (some "x")
      = some (encodeURIComponent "sv", encodeURIComponent "x") :=
  (sas_emission_rule
    (SasQueryParameters.create "2023-01-01" "SIGXYZ" {}) "sv"
    (by decide) "x" (by decide)).2.2.1

/-- C3: the dispatcher returns the file-validation poller when the
originating request URL contains `/files/`, else the run-completion poller
when it contains `/test-runs/`, else raises exactly
"The Operation is not a long running operation."; it never returns a
poller on an unrelated URL, and the file-upload check is evaluated first. -/
theorem lro_dispatch_classification (c : AzureLoadTestingClient)
    (r : LroResponse) :
    (getLongRunningPoller c r =
      if strIncludes r.request.url "/files/" then
        Except.ok LroPoller.fileValidation
      else if strIncludes r.request.url "/test-runs/" then
        Except.ok LroPoller.testRunCompletion
      else Except.error "The Operation is not a long running operation.")
    ∧ (∀ poller, getLongRunningPoller c r = Except.ok poller →
        strIncludes r.request.url "/files/" = true
        ∨ strIncludes r.request.url "/test-runs/" = true)
    ∧ getLongRunningPoller c
        { request := { url := "https://example.com/files/abc123" } }
        = Except.ok LroPoller.fileValidation
    ∧ getLongRunningPoller c
        { request := { url := "https://example.com/test-runs/run1" } }
        = Except.ok LroPoller.testRunCompletion
    ∧ getLongRunningPoller c
        { request := { url := "https://example.com/widgets/1" } }
        = Except.error "The Operation is not a long running operation." := by
  refine ⟨rfl, ?_, rfl, rfl, rfl⟩
  intro poller h
  unfold getLongRunningPoller at h
  by_cases h1 : isFileUpload r
  · exact Or.inl h1
  · by_cases h2 : isTestRunCreation r
    · exact Or.inr h2
    · rw [if_neg (by simp [h1]), if_neg (by simp [h2])] at h
      exact absurd h (by simp)

/-- C3 witness: the poller-implies-recognized-URL implication discharged at
a concrete file-upload response. -/
theorem lro_dispatch_classification_witness :
    strIncludes "https://example.com/files/abc123" "/files/" = true
    ∨ strIncludes "https://example.com/files/abc123" "/test-runs/" = true :=
  (lro_dispatch_classification {}
    { request := { url := "https://example.com/files/abc123" } }).2.1
    LroPoller.fileValidation rfl

lemma valueFor_skoid (p : SasQueryParameters) :
    p.valueFor "skoid" = p.signedOid := rfl

lemma valueFor_sktid (p : SasQueryParameters) :
    p.valueFor "sktid" = p.signedTenantId := rfl

lemma valueFor_skt (p : SasQueryParameters) :
    p.valueFor "skt" = p.signedStartsOn.map truncatedISO8061Date := rfl

lemma valueFor_ske (p : SasQueryParameters) :
    p.valueFor "ske" = p.signedExpiresOn.map truncatedISO8061Date := rfl

lemma valueFor_sks (p : SasQueryParameters) :
    p.valueFor "sks" = p.signedService := rfl

lemma valueFor_skv (p : SasQueryParameters) :
    p.valueFor "skv" = p.signedVersion := rfl

lemma valueFor_saoid (p : SasQueryParameters) :
    p.valueFor "saoid" = p.preauthorizedAgentObjectId := rfl

lemma valueFor_scid (p : SasQueryParameters) :
    p.valueFor "scid" = p.correlationId := rfl

lemma valueFor_srk (p : SasQueryParameters) :
    p.valueFor "srk" = p.startRowKey := rfl

lemma valueFor_spk (p : SasQueryParameters) :
    p.valueFor "spk" = p.startPartitionKey := rfl

lemma valueFor_erk (p : SasQueryParameters) :
    p.valueFor "erk" = p.endRowKey := rfl

lemma valueFor_epk (p : SasQueryParameters) :
    p.valueFor "epk" = p.endPartitionKey := rfl

lemma presentVal_some_iff (x : String) : presentVal (some x) = true ↔ x ≠ "" := by
  simp [presentVal]

lemma not_mem_keys_of_none (p : SasQueryParameters) {k : String}
    (hk : k ∈ sasParamOrder) (hv : p.valueFor k = none) :
    k ∉ (p.emittedPairs).map Prod.fst := by
  rw [mem_emitted_keys_iff p hk, hv]
  simp [presentVal]

/-- C4 (amended): the six delegation-key components are copied onto the
instance as a block iff a `userDelegationKey` option was supplied; with no
key the keys `skoid, sktid, skt, ske, sks, skv` are all absent from the
output; with a key, `skt` and `ske` always appear, while each of `skoid`,
`sktid`, `sks`, `skv` appears iff the corresponding component string is
non-empty (the serializer skips empty values). -/
theorem sas_delegation_block (v s : String) (opts : SasQueryParametersOptions) :
    (opts.userDelegationKey = none →
      (SasQueryParameters.create v s opts).signedOid = none
      ∧ (SasQueryParameters.create v s opts).signedTenantId = none
      ∧ (SasQueryParameters.create v s opts).signedStartsOn = none
      ∧ (SasQueryParameters.create v s opts).signedExpiresOn = none
      ∧ (SasQueryParameters.create v s opts).signedService = none
      ∧ (SasQueryParameters.create v s opts).signedVersion = none
      ∧ ∀ k ∈ (["skoid", "sktid", "skt", "ske", "sks", "skv"] : List String),
          k ∉ ((SasQueryParameters.create v s opts).emittedPairs).map Prod.fst)
    ∧ (∀ udk, opts.userDelegationKey = some udk →
        (SasQueryParameters.create v s opts).signedOid = some udk.signedObjectId
        ∧ (SasQueryParameters.create v s opts).signedTenantId
            = some udk.signedTenantId
        ∧ (SasQueryParameters.create v s opts).signedStartsOn
            = some udk.signedStartsOn
        ∧ (SasQueryParameters.create v s opts).signedExpiresOn
            = some udk.signedExpiresOn
        ∧ (SasQueryParameters.create v s opts).signedService
            = some udk.signedService
        ∧ (SasQueryParameters.create v s opts).signedVersion
            = some udk.signedVersion
        ∧ ("skoid" ∈ ((SasQueryParameters.create v s opts).emittedPairs).map Prod.fst
            ↔ udk.signedObjectId ≠ "")
        ∧ ("sktid" ∈ ((SasQueryParameters.create v s opts).emittedPairs).map Prod.fst
            ↔ udk.signedTenantId ≠ "")
        ∧ "skt" ∈ ((SasQueryParameters.create v s opts).emittedPairs).map Prod.fst
        ∧ "ske" ∈ ((SasQueryParameters.create v s opts).emittedPairs).map Prod.fst
        ∧ ("sks" ∈ ((SasQueryParameters.create v s opts).emittedPairs).map Prod.fst
            ↔ udk.signedService ≠ "")
        ∧ ("skv" ∈ ((SasQueryParameters.create v s opts).emittedPairs).map Prod.fst
            ↔ udk.signedVersion ≠ "")) := by
  constructor
  · intro hnone
    have h1 : (SasQueryParameters.create v s opts).signedOid = none := by
      show opts.userDelegationKey.map (·.signedObjectId) = none
      rw [hnone]; rfl
    have h2 : (SasQueryParameters.create v s opts).signedTenantId = none := by
      show opts.userDelegationKey.map (·.signedTenantId) = none
      rw [hnone]; rfl
    have h3 : (SasQueryParameters.create v s opts).signedStartsOn = none := by
      show opts.userDelegationKey.map (·.signedStartsOn) = none
      rw [hnone]; rfl
    have h4 : (SasQueryParameters.create v s opts).signedExpiresOn = none := by
      show opts.userDelegationKey.map (·.signedExpiresOn) = none
      rw [hnone]; rfl
    have h5 : (SasQueryParameters.create v s opts).signedService = none := by
      show opts.userDelegationKey.map (·.signedService) = none
      rw [hnone]; rfl
    have h6 : (SasQueryParameters.create v s opts).signedVersion = none := by
      show opts.userDelegationKey.map (·.signedVersion) = none
      rw [hnone]; rfl
    refine ⟨h1, h2, h3, h4, h5, h6, ?_⟩
    intro k hk
    fin_cases hk
    · exact not_mem_keys_of_none _ (by decide) (by rw [valueFor_skoid, h1])
    · exact not_mem_keys_of_none _ (by decide) (by rw [valueFor_sktid, h2])
    · exact not_mem_keys_of_none _ (by decide)
        (by rw [valueFor_skt, h3]; rfl)
    · exact not_mem_keys_of_none _ (by decide)
        (by rw [valueFor_ske, h4]; rfl)
    · exact not_mem_keys_of_none _ (by decide) (by rw [valueFor_sks, h5])
    · exact not_mem_keys_of_none _ (by decide) (by rw [valueFor_skv, h6])
  · intro udk hudk
    have e1 : (SasQueryParameters.create v s opts).signedOid
        = some udk.signedObjectId := by
      show opts.userDelegationKey.map (·.signedObjectId) = _
      rw [hudk]; rfl
    have e2 : (SasQueryParameters.create v s opts).signedTenantId
        = some udk.signedTenantId := by
      show opts.userDelegationKey.map (·.signedTenantId) = _
      rw [hudk]; rfl
    have e3 : (SasQueryParameters.create v s opts).signedStartsOn
        = some udk.signedStartsOn := by
      show opts.userDelegationKey.map (·.signedStartsOn) = _
      rw [hudk]; rfl
    have e4 : (SasQueryParameters.create v s opts).signedExpiresOn
        = some udk.signedExpiresOn := by
      show opts.userDelegationKey.map (·.signedExpiresOn) = _
      rw [hudk]; rfl
    have e5 : (SasQueryParameters.create v s opts).signedService
        = some udk.signedService := by
      show opts.userDelegationKey.map (·.signedService) = _
      rw [hudk]; rfl
    have e6 : (SasQueryParameters.create v s opts).signedVersion
        = some udk.signedVersion := by
      show opts.userDelegationKey.map (·.signedVersion) = _
      rw [hudk]; rfl
    refine ⟨e1, e2, e3, e4, e5, e6, ?_, ?_, ?_, ?_, ?_, ?_⟩
    · rw [mem_emitted_keys_iff _ (by decide), valueFor_skoid, e1]
      exact presentVal_some_iff _
    · rw [mem_emitted_keys_iff _ (by decide), valueFor_sktid, e2]
      exact presentVal_some_iff _
    · rw [mem_emitted_keys_iff _ (by decide), valueFor_skt, e3,
        Option.map_some']
      exact (presentVal_some_iff _).mpr (truncISO_ne_empty _)
    · rw [mem_emitted_keys_iff _ (by decide), valueFor_ske, e4,
        Option.map_some']
      exact (presentVal_some_iff _).mpr (truncISO_ne_empty _)
    · rw [mem_emitted_keys_iff _ (by decide), valueFor_sks, e5]
      exact presentVal_some_iff _
    · rw [mem_emitted_keys_iff _ (by decide), valueFor_skv, e6]
      exact presentVal_some_iff _

/-- C4 witness: the delegation block copied from a concrete key. -/
theorem sas_delegation_block_witness :
    (SasQueryParameters.create "2023-01-01" "SIG"
      { userDelegationKey := some
          { signedObjectId := "oid", signedTenantId := "tid",
            signedStartsOn :=
              { year := 2024, month := 1, day := 1,
                hour := 0, minute := 0, second := 0 },
            signedExpiresOn :=
              { year := 2024, month := 2, day := 1,
                hour := 0, minute := 0, second := 0 },
            signedService := "t", signedVersion := "2020-12-06" } }).signedOid
      = some "oid" :=
  ((sas_delegation_block "2023-01-01" "SIG"
      { userDelegationKey := some
          { signedObjectId := "oid", signedTenantId := "tid",
            signedStartsOn :=
              { year := 2024, month := 1, day := 1,
                hour := 0, minute := 0, second := 0 },
            signedExpiresOn :=
              { year := 2024, month := 2, day := 1,
                hour := 0, minute := 0, second := 0 },
            signedService := "t", signedVersion := "2020-12-06" } }).2
    _ rfl).1

/-- A delegation key whose object-id component is the empty string: every
component is a legal TypeScript value of its declared type. -/
def udkCE : UserDelegationKey :=
  { signedObjectId := "", signedTenantId := "tid",
    signedStartsOn :=
      { year := 2024, month := 1, day := 1, hour := 0, minute := 0, second := 0 },
    signedExpiresOn :=
      { year := 2024, month := 2, day := 1, hour := 0, minute := 0, second := 0 },
    signedService := "t", signedVersion := "2020-12-06" }

/-- C4 counterexample: a `userDelegationKey` whose `signedObjectId` is the
empty string is supplied at construction, yet `skoid` does not appear in
the output (the serializer skips empty values) while `ske` does — so the
six keys do not appear merely because a delegation key was supplied. -/
theorem sas_delegation_iff_counterexample :
    ((((SasQueryParameters.create "v" "s"
        { userDelegationKey := some udkCE }).emittedPairs).map
          Prod.fst).contains "skoid") = false
    ∧ ((((SasQueryParameters.create "v" "s"
        { userDelegationKey := some udkCE }).emittedPairs).map
          Prod.fst).contains "ske") = true
    ∧ strIncludes (SasQueryParameters.create "v" "s"
        { userDelegationKey := some udkCE }).toString "skoid" = false := by
  decide

/-- C5: the constructor requires `version` and `signature` — a call missing
either is a construction-time required-argument/type error and no object is
produced — while construction never fails on missing optional fields: with
both required arguments it succeeds for every options bag. -/
theorem sas_required_args (v s : Option String)
    (opts : SasQueryParametersOptions) (h : v = none ∨ s = none) :
    SasQueryParameters.checkedCreate v s opts
      = Except.error
          "required-argument/type error: version and signature are required"
    ∧ (∀ (v' s' : String) (opts' : SasQueryParametersOptions),
        SasQueryParameters.checkedCreate (some v') (some s') opts'
          = Except.ok (SasQueryParameters.create v' s' opts')) := by
  constructor
  · rcases h with h | h
    · subst h; cases s <;> rfl
    · subst h; cases v <;> rfl
  · intro v' s' opts'; rfl

/-- C5 witness: a call with no version is rejected. -/
theorem sas_required_args_witness :
    SasQueryParameters.checkedCreate none (some "SIG")
      ({} : SasQueryParametersOptions)
      = Except.error
          "required-argument/type error: version and signature are required" :=
  (sas_required_args none (some "SIG") {} (Or.inl rfl)).1

/-- C6: the encoded `sip` value is the start string alone when the end is
absent or equal to the start, and `start-end` otherwise; no IP-syntax
validation is performed (arbitrary strings pass through), and in particular
`encode(start, undefined) = start`, `encode(ip, ip) = ip`, and
`encode("10.0.0.1","10.0.0.5") = "10.0.0.1-10.0.0.5"`. -/
theorem ipRange_encoding (r : SasIPRange) :
    (r.«end» = none → ipRangeToString r = r.start)
    ∧ (∀ e, r.«end» = some e → e = r.start → ipRangeToString r = r.start)
    ∧ (∀ e, r.«end» = some e → e ≠ r.start →
        ipRangeToString r = r.start ++ "-" ++ e)
    ∧ ipRangeToString { start := "10.0.0.1", «end» := some "10.0.0.5" }
        = "10.0.0.1-10.0.0.5"
    ∧ (∀ ip : String, ipRangeToString { start := ip, «end» := none } = ip)
    ∧ (∀ ip : String, ipRangeToString { start := ip, «end» := some ip } = ip) := by
  refine ⟨?_, ?_, ?_, by decide, ?_, ?_⟩
  · intro h; rw [ipRangeToString, h]
  · intro e he hee; rw [ipRangeToString, he]; simp [hee]
  · intro e he hee; rw [ipRangeToString, he]; simp [hee]
  · intro ip; rfl
  · intro ip; simp [ipRangeToString]

/-- C6 witness: the hyphen-joined case at a concrete pair. -/
theorem ipRange_encoding_witness :
    ipRangeToString { start := "1.2.3.4", «end» := some "5.6.7.8" }
      = "1.2.3.4" ++ "-" ++ "5.6.7.8" :=
  (ipRange_encoding { start := "1.2.3.4", «end» := some "5.6.7.8" }).2.2.1
    "5.6.7.8" rfl (by decide)

/-- C7: the spec's end-to-end scenario — version "2023-01-01", signature
"SIGXYZ", table "T1", permissions "r", expiry 2024-01-01T00:00:00Z —
serializes to exactly
"sv=2023-01-01&se=2024-01-01T00%3A00%3A00Z&sp=r&sig=SIGXYZ&tn=T1". -/
theorem sas_scenario_example :
    (SasQueryParameters.create "2023-01-01" "SIGXYZ"
      { tableName := some "T1", permissions := some "r",
        expiresOn := some
          { year := 2024, month := 1, day := 1,
            hour := 0, minute := 0, second := 0 } }).toString
    = "sv=2023-01-01&se=2024-01-01T00%3A00%3A00Z&sp=r&sig=SIGXYZ&tn=T1" := by
  decide

/-- C8: serialization is deterministic and does not mutate the object —
two sequential `toString` calls on the same (immutable, side-effect-free)
instance return byte-identical strings. -/
theorem sas_toString_deterministic (p : SasQueryParameters) :
    (p.toStringTwice).1 = (p.toStringTwice).2
    ∧ p.toStringTwice = (p.toString, p.toString) :=
  ⟨rfl, rfl⟩

/-- C9: a start (or end) row key without the matching partition key is
accepted — construction succeeds — and the lone row key is silently
serialized: `srk` (resp. `erk`) appears in the output with no `spk`
(resp. `epk`). -/
theorem sas_lone_row_key (v s rk : String) (hrk : rk ≠ "") :
    SasQueryParameters.checkedCreate (some v) (some s)
        { startRowKey := some rk }
      = Except.ok (SasQueryParameters.create v s { startRowKey := some rk })
    ∧ "srk" ∈ ((SasQueryParameters.create v s
        { startRowKey := some rk }).emittedPairs).map Prod.fst
    ∧ "spk" ∉ ((SasQueryParameters.create v s
        { startRowKey := some rk }).emittedPairs).map Prod.fst
    ∧ SasQueryParameters.checkedCreate (some v) (some s)
        { endRowKey := some rk }
      = Except.ok (SasQueryParameters.create v s { endRowKey := some rk })
    ∧ "erk" ∈ ((SasQueryParameters.create v s
        { endRowKey := some rk }).emittedPairs).map Prod.fst
    ∧ "epk" ∉ ((SasQueryParameters.create v s
        { endRowKey := some rk }).emittedPairs).map Prod.fst := by
  refine ⟨rfl, ?_, ?_, rfl, ?_, ?_⟩
  · rw [mem_emitted_keys_iff _ (by decide), valueFor_srk]
    exact (presentVal_some_iff _).mpr hrk
  · exact not_mem_keys_of_none _ (by decide) (valueFor_spk _)
  · rw [mem_emitted_keys_iff _ (by decide), valueFor_erk]
    exact (presentVal_some_iff _).mpr hrk
  · exact not_mem_keys_of_none _ (by decide) (valueFor_epk _)

/-- C9 witness: a lone start row key serialized at concrete arguments. -/
theorem sas_lone_row_key_witness :
    "srk" ∈ ((SasQueryParameters.create "2023-01-01" "SIG"
      { startRowKey := some "RK1" }).emittedPairs).map Prod.fst :=
  (sas_lone_row_key "2023-01-01" "SIG" "RK1" (by decide)).2.1

/-- C10: without a `userDelegationKey`, explicitly supplied
`preauthorizedAgentObjectId` and `correlationId` options are silently
discarded — the constructed fields are `undefined` and `saoid`/`scid`
never appear in the output. -/
theorem sas_saoid_scid_discarded (v s : String)
    (opts : SasQueryParametersOptions) (h : opts.userDelegationKey = none) :
    (SasQueryParameters.create v s opts).preauthorizedAgentObjectId = none
    ∧ (SasQueryParameters.create v s opts).correlationId = none
    ∧ "saoid" ∉ ((SasQueryParameters.create v s opts).emittedPairs).map Prod.fst
    ∧ "scid" ∉ ((SasQueryParameters.create v s opts).emittedPairs).map Prod.fst := by
  have h1 : (SasQueryParameters.create v s opts).preauthorizedAgentObjectId
      = none := by
    show (match opts.userDelegationKey with
      | some _ => opts.preauthorizedAgentObjectId
      | none => none) = none
    rw [h]
  have h2 : (SasQueryParameters.create v s opts).correlationId = none := by
    show (match opts.userDelegationKey with
      | some _ => opts.correlationId
      | none => none) = none
    rw [h]
  refine ⟨h1, h2, ?_, ?_⟩
  · exact not_mem_keys_of_none _ (by decide) (by rw [valueFor_saoid, h1])
  · exact not_mem_keys_of_none _ (by decide) (by rw [valueFor_scid, h2])

/-- C10 witness: explicitly supplied agent/correlation ids are dropped when
no delegation key is given. -/
theorem sas_saoid_scid_discarded_witness :
    (SasQueryParameters.create "2023-01-01" "SIG"
      { userDelegationKey := none,
        preauthorizedAgentObjectId := some "AGENT",
        correlationId := some "CORR" }).preauthorizedAgentObjectId = none :=
  (sas_saoid_scid_discarded "2023-01-01" "SIG"
    { userDelegationKey := none,
      preauthorizedAgentObjectId := some "AGENT",
      correlationId := some "CORR" } rfl).1

end AzureSdk
